import Mathlib

/-!
Verification of the shipping-service repository: a shallow embedding of the
shipment data model, the promise-based repository (shipmentModel), the JWT
middleware (verifyToken), the controller (shipmentController), the request
logger (logRequest) and the GraphQL resolvers (server.js), together with
theorems settling the specification's claims about them.

Machine conventions: the `shipments` table is a list of rows plus an
auto-increment counter; timestamps are naturals; SQL row sets keep insertion
order, so `SELECT ... WHERE` is `List.filter` and `rows[0]` is `List.head?`.
JavaScript truthiness of an optional value is modelled per type: a missing
value, the empty string, and the number zero are falsy.
-/

namespace ShippingSvc

/-- A row of the `shipments` table, with the columns used by the code. -/
structure Shipment where
  id : Nat
  order_id : String
  recipient_name : String
  recipient_email : String
  recipient_phone : String
  delivery_address : String
  postal_number : Int
  city : String
  country : String
  delivery_status : String
  tracking_number : Option String
  weight : Rat
  estimated_cost : Rat
  created_at : Nat
  updated_at : Nat
deriving Repr, DecidableEq, Inhabited

/-- The database state: the `shipments` rows in insertion order and the
auto-increment counter that supplies `insertId`. -/
structure Db where
  rows : List Shipment
  nextId : Nat
deriving Repr, DecidableEq

/-- Caller-supplied column values for an INSERT, as assembled by the
controller (`shipmentData` in `createShipment`): every column except the
store-assigned `id`. -/
structure ShipmentData where
  order_id : String
  recipient_name : String
  recipient_email : String
  recipient_phone : String
  delivery_address : String
  postal_number : Int
  city : String
  country : String
  delivery_status : String
  tracking_number : Option String
  weight : Rat
  estimated_cost : Rat
  created_at : Nat
  updated_at : Nat
deriving Repr, DecidableEq

/-- The row produced by `INSERT INTO shipments SET ?` once the store assigns
the auto-increment `id`. -/
def ShipmentData.toRow (d : ShipmentData) (id : Nat) : Shipment :=
  { id := id, order_id := d.order_id, recipient_name := d.recipient_name,
    recipient_email := d.recipient_email, recipient_phone := d.recipient_phone,
    delivery_address := d.delivery_address, postal_number := d.postal_number,
    city := d.city, country := d.country, delivery_status := d.delivery_status,
    tracking_number := d.tracking_number, weight := d.weight,
    estimated_cost := d.estimated_cost, created_at := d.created_at,
    updated_at := d.updated_at }

/-- `Shipment.getAll` (shipmentModel):
`SELECT * FROM shipments WHERE recipient_email = ?`. -/
def Shipment.getAll (db : Db) (recipient_email : String) : List Shipment :=
  db.rows.filter (fun r => r.recipient_email == recipient_email)

/-- `Shipment.getByOrderId` (shipmentModel):
`SELECT * FROM shipments WHERE order_id = ? AND recipient_email = ?`,
returning `rows[0]`. -/
def Shipment.getByOrderId (db : Db) (order_id recipient_email : String) :
    Option Shipment :=
  (db.rows.filter
    (fun r => r.order_id == order_id && r.recipient_email == recipient_email)).head?

/-- `Shipment.create` (shipmentModel): `INSERT INTO shipments SET ?`,
returning `result.insertId` and the new store state. -/
def Shipment.create (db : Db) (shipmentData : ShipmentData) : Nat × Db :=
  (db.nextId,
   { rows := db.rows ++ [shipmentData.toRow db.nextId], nextId := db.nextId + 1 })

/-- `Shipment.updateDeliveryStatus` (shipmentModel):
`UPDATE shipments SET delivery_status = ? WHERE id = ? AND recipient_email = ?`,
returning `result.affectedRows`. -/
def Shipment.updateDeliveryStatus (db : Db) (id : Nat)
    (recipient_email delivery_status : String) : Nat × Db :=
  ((db.rows.filter (fun r => r.id == id && r.recipient_email == recipient_email)).length,
   { db with rows := db.rows.map (fun r =>
       if r.id == id && r.recipient_email == recipient_email then
         { r with delivery_status := delivery_status }
       else r) })

/-- `Shipment.updateTimestamp` (shipmentModel):
`UPDATE shipments SET updated_at = ? WHERE id = ? AND recipient_email = ?`
with `new Date()` as the value, returning `result.affectedRows`. -/
def Shipment.updateTimestamp (db : Db) (id : Nat) (recipient_email : String)
    (now : Nat) : Nat × Db :=
  ((db.rows.filter (fun r => r.id == id && r.recipient_email == recipient_email)).length,
   { db with rows := db.rows.map (fun r =>
       if r.id == id && r.recipient_email == recipient_email then
         { r with updated_at := now }
       else r) })

/-- `Shipment.delete` (shipmentModel):
`DELETE FROM shipments WHERE id = ? AND recipient_email = ?`,
returning `result.affectedRows`. -/
def Shipment.delete (db : Db) (id : Nat) (recipient_email : String) : Nat × Db :=
  ((db.rows.filter (fun r => r.id == id && r.recipient_email == recipient_email)).length,
   { db with rows := db.rows.filter (fun r =>
       !(r.id == id && r.recipient_email == recipient_email)) })

/-- `Shipment.deleteAll` (shipmentModel):
`DELETE FROM shipments WHERE recipient_email = ?`,
returning `result.affectedRows`. -/
def Shipment.deleteAll (db : Db) (recipient_email : String) : Nat × Db :=
  ((db.rows.filter (fun r => r.recipient_email == recipient_email)).length,
   { db with rows := db.rows.filter (fun r => !(r.recipient_email == recipient_email)) })

/-! ## GraphQL resolvers (server.js) -/

/-- The nested `recipient` object built by the GraphQL resolvers. -/
structure GqlRecipient where
  name : String
  email : String
  phone : String
deriving Repr, DecidableEq

/-- The nested `address` object built by the GraphQL resolvers. -/
structure GqlAddress where
  delivery_address : String
  postal_number : Int
  city : String
  country : String
deriving Repr, DecidableEq

/-- The object a GraphQL resolver returns for one row: the spread `...row`
plus the nested `recipient` and `address` views. -/
structure GqlShipmentView where
  row : Shipment
  recipient : GqlRecipient
  address : GqlAddress
deriving Repr, DecidableEq

/-- The reshaping `{...row, recipient: {...}, address: {...}}` applied by both
GraphQL resolvers in server.js. -/
def gqlView (row : Shipment) : GqlShipmentView :=
  { row := row,
    recipient := { name := row.recipient_name, email := row.recipient_email,
                   phone := row.recipient_phone },
    address := { delivery_address := row.delivery_address,
                 postal_number := row.postal_number, city := row.city,
                 country := row.country } }

/-- The GraphQL resolver `root.shipments` (server.js):
`SELECT * FROM shipments` with no WHERE clause, every row reshaped. -/
def rootShipments (db : Db) : List GqlShipmentView :=
  db.rows.map gqlView

/-- The GraphQL resolver `root.shipmentById` (server.js):
`SELECT * FROM shipments WHERE id = ?` — no owner filter. -/
def rootShipmentById (db : Db) (id : Nat) : Option GqlShipmentView :=
  ((db.rows.filter (fun r => r.id == id)).head?).map gqlView

/-- server.js mounts `/graphql` with `graphqlHTTP` and no `authenticateToken`
middleware: the `shipments` resolver runs for every request, whatever
Authorization header (if any) the request carries. -/
def graphqlShipmentsRequest (_authHeader : Option String) (db : Db) :
    List GqlShipmentView :=
  rootShipments db

/-! ## JWT middleware (verifyToken.js) -/

/-- Outcome of `jwt.verify`: success with the decoded payload's identity, a
`TokenExpiredError`, or any other verification error. -/
inductive VerifyResult where
  | ok (user : String)
  | tokenExpired
  | invalid
deriving Repr, DecidableEq

/-- An HTTP error response sent by the middleware. -/
structure AuthResponse where
  status : Nat
  message : String
deriving Repr, DecidableEq

/-- What `authenticateToken` does with the request: reject it with a response
(`next()` is never called, so no controller or repository code runs), or
attach the verified user and call `next()`. -/
inductive AuthOutcome where
  | reject (r : AuthResponse)
  | proceed (user : String)
deriving Repr, DecidableEq

/-- Whether the middleware outcome blocks the request from reaching the
route handler. -/
def AuthOutcome.blocks : AuthOutcome → Bool
  | .reject _ => true
  | .proceed _ => false

/-- Splitting a character list at a separator, as JavaScript's
`String.prototype.split` does on a one-character separator: adjacent
separators and a trailing separator produce empty pieces. -/
def splitAux (sep : Char) : List Char → List Char → List String
  | [], acc => [String.mk acc.reverse]
  | c :: cs, acc =>
    if c = sep then String.mk acc.reverse :: splitAux sep cs []
    else splitAux sep cs (c :: acc)

/-- JavaScript's `s.split(sep)` for a one-character separator. -/
def jsSplit (s : String) (sep : Char) : List String :=
  splitAux sep s.data []

/-- `authHeader.split(' ')[1]` — the token part of a `Bearer <token>` header;
JavaScript yields `undefined` (falsy) when there is no second part, and the
empty string is falsy too, so both map to `""` here. -/
def tokenOf (h : String) : String :=
  (jsSplit h ' ').getD 1 ""

/-- `authenticateToken` (verifyToken.js). `if (!authHeader)` is JavaScript
truthiness, so a missing or empty header is rejected first; then a missing
token part; then `jwt.verify`, whose errors are answered with status 403 —
`TokenExpiredError` with its own message. `verify` stands for
`jwt.verify(token, process.env.JWT_SECRET, ...)`. -/
def authenticateToken (authHeader : Option String)
    (verify : String → VerifyResult) : AuthOutcome :=
  match authHeader with
  | none => .reject { status := 401, message := "Authorization header missing" }
  | some h =>
    if h == "" then
      .reject { status := 401, message := "Authorization header missing" }
    else if tokenOf h == "" then
      .reject { status := 401, message := "Access token required" }
    else
      match verify (tokenOf h) with
      | .ok user => .proceed user
      | .tokenExpired => .reject { status := 403, message := "Access token expired" }
      | .invalid => .reject { status := 403, message := "Invalid access token" }

/-! ## Best-effort side channels (logRequest.js, logStat) -/

/-- The `command_log` table. -/
structure CommandLog where
  entries : List (String × String)
deriving Repr, DecidableEq

/-- `logRequest` (logRequest.js): try to INSERT `(method, endpoint)` into
`command_log`; any error is caught and only logged to the console; `next()`
is called either way. `insertResult` stands for the outcome of the awaited
`db.query`; the returned Bool is whether `next()` ran. -/
def logRequest (method originalUrl : String) (insertResult : Except String Unit)
    (log : CommandLog) : CommandLog × Bool :=
  match insertResult with
  | .ok _ => ({ entries := log.entries ++ [(method, originalUrl)] }, true)
  | .error _ => (log, true)

/-- `logStat` (shipmentController.js): `axios.post` to the stats service
inside try/catch — a network failure is caught and discarded, so the promise
returned by `logStat` never rejects. `pingResult` stands for the outcome of
the awaited `axios.post`. -/
def logStat (pingResult : Except String Unit) : Except String Unit :=
  match pingResult with
  | .ok _ => .ok ()
  | .error _ => .ok ()

/-! ## Controller (shipmentController.js)

Each handler is modelled after authentication: the route attaches
`authenticateToken` before the handler, and inside the handler
`getEmailFromToken` re-reads the verified token, so the handler functions
take the resolved `recipient_email` directly. The stats ping outcome is an
explicit `Except` parameter threaded to `logStat`; were `await logStat(...)`
ever to reject, the handler's catch would answer 500, so the model keeps
that branch. -/

/-- JavaScript truthiness of an optional string: `undefined` and `""` are
falsy. -/
def truthyStr : Option String → Bool
  | none => false
  | some s => !(s == "")

/-- JavaScript truthiness of an optional integer: `undefined` and `0` are
falsy. -/
def truthyInt : Option Int → Bool
  | none => false
  | some n => !(n == 0)

/-- JavaScript truthiness of an optional number: `undefined` and `0` are
falsy. -/
def truthyRat : Option Rat → Bool
  | none => false
  | some q => !(q == 0)

/-- The JSON body of a create request: every field the controller
destructures; a missing property is `none`. -/
structure CreateBody where
  order_id : Option String
  recipient_name : Option String
  recipient_email : Option String
  recipient_phone : Option String
  delivery_address : Option String
  postal_number : Option Int
  city : Option String
  country : Option String
  delivery_status : Option String
  tracking_number : Option String
  weight : Option Rat
  estimated_cost : Option Rat
  created_at : Option Nat
  updated_at : Option Nat
deriving Repr, DecidableEq

/-- The guard `if (!order_id || !recipient_name || ... || !estimated_cost)`
of `createShipment`, testing JavaScript truthiness of the eleven required
fields. -/
def createMissingField (b : CreateBody) : Bool :=
  !truthyStr b.order_id || !truthyStr b.recipient_name ||
  !truthyStr b.recipient_email || !truthyStr b.recipient_phone ||
  !truthyStr b.delivery_address || !truthyInt b.postal_number ||
  !truthyStr b.city || !truthyStr b.country ||
  !truthyStr b.delivery_status || !truthyRat b.weight ||
  !truthyRat b.estimated_cost

/-- A controller response with a `message` body. -/
structure Response where
  status : Nat
  message : String
deriving Repr, DecidableEq

/-- The response of `createShipment`, which also carries `shipmentId` on
success. -/
structure CreateResult where
  status : Nat
  message : String
  shipmentId : Option Nat
deriving Repr, DecidableEq

/-- `createShipment` (shipmentController.js): destructure the body with
`new Date()` (`now`) as default for the timestamps and `null` for
`tracking_number`, reject with 400 before any repository call when a
required field is falsy, otherwise build `shipmentData`, insert it, ping the
stats service and answer 201 with the new id. -/
def createShipment (now : Nat) (b : CreateBody) (db : Db)
    (ping : Except String Unit) : CreateResult × Db :=
  if createMissingField b then
    ({ status := 400, message := "All fields are required", shipmentId := none }, db)
  else
    let shipmentData : ShipmentData :=
      { order_id := b.order_id.getD "",
        recipient_name := b.recipient_name.getD "",
        recipient_email := b.recipient_email.getD "",
        recipient_phone := b.recipient_phone.getD "",
        delivery_address := b.delivery_address.getD "",
        postal_number := b.postal_number.getD 0,
        city := b.city.getD "",
        country := b.country.getD "",
        delivery_status := b.delivery_status.getD "",
        tracking_number := b.tracking_number,
        weight := b.weight.getD 0,
        estimated_cost := b.estimated_cost.getD 0,
        created_at := b.created_at.getD now,
        updated_at := b.updated_at.getD now }
    let res := Shipment.create db shipmentData
    match logStat ping with
    | .error _ =>
      ({ status := 500, message := "Failed to create shipment", shipmentId := none },
       res.2)
    | .ok _ =>
      ({ status := 201, message := "Shipment created successfully",
         shipmentId := some res.1 }, res.2)

/-- `getAllShipments` (shipmentController.js): list the caller's rows, ping
the stats service, answer 200 with the rows. -/
def getAllShipments (recipient_email : String) (db : Db)
    (ping : Except String Unit) : Response × List Shipment :=
  let shipments := Shipment.getAll db recipient_email
  match logStat ping with
  | .error _ => ({ status := 500, message := "Failed to retrieve shipments" }, [])
  | .ok _ => ({ status := 200, message := "" }, shipments)

/-- `updateDeliveryStatus` (shipmentController.js): 400 when `id` or
`delivery_status` is falsy, otherwise run the scoped UPDATE; zero affected
rows answer 404 "Shipment not found", success answers 200. The route param
`id` is present iff the route matched, hence `Option`. -/
def updateDeliveryStatus (id : Option Nat) (delivery_status : Option String)
    (recipient_email : String) (db : Db) (ping : Except String Unit) :
    Response × Db :=
  if !id.isSome || !truthyStr delivery_status then
    ({ status := 400, message := "Shipment ID and delivery_status are required" }, db)
  else
    let res := Shipment.updateDeliveryStatus db (id.getD 0) recipient_email
      (delivery_status.getD "")
    if res.1 == 0 then
      ({ status := 404, message := "Shipment not found" }, res.2)
    else
      match logStat ping with
      | .error _ => ({ status := 500, message := "Failed to update delivery status" }, res.2)
      | .ok _ => ({ status := 200, message := "Delivery status updated successfully" }, res.2)

/-- `deleteAllShipments` (shipmentController.js): run the owner-scoped bulk
DELETE; zero affected rows answer 404 "No shipments to delete", otherwise
200. -/
def deleteAllShipments (recipient_email : String) (db : Db)
    (ping : Except String Unit) : Response × Db :=
  let res := Shipment.deleteAll db recipient_email
  if res.1 == 0 then
    ({ status := 404, message := "No shipments to delete" }, res.2)
  else
    match logStat ping with
    | .error _ => ({ status := 500, message := "Failed to delete shipments" }, res.2)
    | .ok _ => ({ status := 200, message := "All shipments deleted successfully" }, res.2)

/-! ## General list lemmas used by several ownership arguments -/

/-- A pointwise update that only touches elements selected by `c` leaves the
`p`-selection of a list unchanged, provided selected elements fail `p` both
before and after the update. -/
theorem filter_map_excl {α : Type} (l : List α) (p c : α → Bool) (f : α → α)
    (h : ∀ a, c a = true → p a = false ∧ p (f a) = false) :
    (l.map (fun a => if c a then f a else a)).filter p = l.filter p := by
  induction l with
  | nil => rfl
  | cons x xs ih =>
    by_cases hx : c x = true
    · simp [List.filter_cons, hx, (h x hx).1, (h x hx).2, ih]
    · have hx' : c x = false := by simpa using hx
      by_cases hp : p x = true
      · simp [List.filter_cons, hx', hp, ih]
      · have hp' : p x = false := by simpa using hp
        simp [List.filter_cons, hx', hp', ih]

/-- Deleting the elements selected by `c` leaves the `p`-selection of a list
unchanged, provided no element satisfies both `c` and `p`. -/
theorem filter_filter_excl {α : Type} (l : List α) (p c : α → Bool)
    (h : ∀ a, c a = true → p a = false) :
    (l.filter (fun a => !(c a))).filter p = l.filter p := by
  induction l with
  | nil => rfl
  | cons x xs ih =>
    by_cases hx : c x = true
    · simp [List.filter_cons, hx, h x hx, ih]
    · have hx' : c x = false := by simpa using hx
      by_cases hp : p x = true
      · simp [List.filter_cons, hx', hp, ih]
      · have hp' : p x = false := by simpa using hp
        simp [List.filter_cons, hx', hp', ih]

/-- The kept and deleted parts of a filtered list account for its length. -/
theorem length_filter_not_add {α : Type} (l : List α) (c : α → Bool) :
    (l.filter (fun a => !(c a))).length + (l.filter c).length = l.length := by
  induction l with
  | nil => rfl
  | cons x xs ih =>
    by_cases hx : c x = true
    · simp [List.filter_cons, hx]
      omega
    · have hx' : c x = false := by simpa using hx
      simp [List.filter_cons, hx']
      omega

/-! ## Concrete fixtures -/

/-- A shipment owned by `a@x.com`. -/
def shipA : Shipment :=
  { id := 1, order_id := "ORD1", recipient_name := "Alice",
    recipient_email := "a@x.com", recipient_phone := "040111222",
    delivery_address := "Main Street 1", postal_number := 1000,
    city := "Ljubljana", country := "Slovenia",
    delivery_status := "in transit", tracking_number := some "TRACK001",
    weight := 3/2, estimated_cost := 10, created_at := 100, updated_at := 100 }

/-- A shipment owned by `b@x.com`. -/
def shipB : Shipment :=
  { id := 2, order_id := "ORD2", recipient_name := "Bob",
    recipient_email := "b@x.com", recipient_phone := "040333444",
    delivery_address := "Side Street 2", postal_number := 2000,
    city := "Maribor", country := "Slovenia",
    delivery_status := "delivered", tracking_number := none,
    weight := 2, estimated_cost := 8, created_at := 200, updated_at := 200 }

/-- A store holding only `shipA`. -/
def dbA : Db := { rows := [shipA], nextId := 2 }

/-- A store holding `shipA` and `shipB`. -/
def dbAB : Db := { rows := [shipA, shipB], nextId := 3 }

/-- The empty store. -/
def dbEmpty : Db := { rows := [], nextId := 1 }

/-- A create body with every property missing. -/
def bodyEmpty : CreateBody :=
  { order_id := none, recipient_name := none, recipient_email := none,
    recipient_phone := none, delivery_address := none, postal_number := none,
    city := none, country := none, delivery_status := none,
    tracking_number := none, weight := none, estimated_cost := none,
    created_at := none, updated_at := none }

/-- A fully valid create body for owner `e@x.com`, order `ORD1`. -/
def bodyNew : CreateBody :=
  { order_id := some "ORD1", recipient_name := some "New",
    recipient_email := some "e@x.com", recipient_phone := some "041555666",
    delivery_address := some "New Street 3", postal_number := some 3000,
    city := some "Celje", country := some "Slovenia",
    delivery_status := some "in transit", tracking_number := some "TRACK002",
    weight := some 2, estimated_cost := some 7,
    created_at := none, updated_at := none }

/-- A valid create body except that `estimated_cost` is present and equal
to `0`. -/
def bodyZeroCost : CreateBody :=
  { bodyNew with order_id := some "ORD9", estimated_cost := some 0 }

/-- A create body that is valid to the controller but whose
`delivery_status` is outside the documented enumeration. -/
def bodyBadStatus : CreateBody :=
  { bodyNew with order_id := some "ORD8", delivery_status := some "teleported" }

/-- A shipment with the same `(order_id, recipient_email)` key as `bodyNew`
but different caller-visible fields. -/
def shipOld : Shipment :=
  { id := 1, order_id := "ORD1", recipient_name := "Old",
    recipient_email := "e@x.com", recipient_phone := "041000000",
    delivery_address := "Old Street 0", postal_number := 4000,
    city := "Kranj", country := "Slovenia",
    delivery_status := "delivered", tracking_number := none,
    weight := 1, estimated_cost := 5, created_at := 10, updated_at := 10 }

/-- A store already holding `shipOld`. -/
def dbDup : Db := { rows := [shipOld], nextId := 2 }

/-- The enumeration of `delivery_status` values declared by the repository's
own OpenAPI annotations (shipmentsRoutes.js): the documented set of accepted
values. -/
def statusEnum : List String :=
  ["delivered", "in transit", "ready for pick up", "shipment handed over"]

/-! ## Claim C2 — missing vs expired credential -/

/-- Claim C2, counterexample: the claim says an expired token is answered
401, but `authenticateToken` answers an expired token with status 403
("Access token expired"), as evaluated here on a concrete request carrying
a Bearer token whose verification reports `TokenExpiredError`. -/
theorem expired_token_gets_403_not_401 :
    authenticateToken (some "Bearer sometoken") (fun _ => VerifyResult.tokenExpired)
      = AuthOutcome.reject { status := 403, message := "Access token expired" }
    ∧ (403 : Nat) ≠ 401 := by
  exact ⟨by decide, by decide⟩

/-- Claim C2, amended: a request with no Authorization header is answered
401 "Authorization header missing"; a request whose token is expired is
answered 403 "Access token expired"; the two messages are distinct and both
outcomes block the request before any controller or repository code runs. -/
theorem auth_missing_and_expired_both_block (verify : String → VerifyResult)
    (h : String) (hh : (h == "") = false) (ht : (tokenOf h == "") = false)
    (hexp : verify (tokenOf h) = VerifyResult.tokenExpired) :
    authenticateToken none verify
      = AuthOutcome.reject { status := 401, message := "Authorization header missing" }
    ∧ authenticateToken (some h) verify
      = AuthOutcome.reject { status := 403, message := "Access token expired" }
    ∧ (authenticateToken none verify).blocks = true
    ∧ (authenticateToken (some h) verify).blocks = true
    ∧ "Authorization header missing" ≠ "Access token expired" := by
  have h2 : authenticateToken (some h) verify
      = AuthOutcome.reject { status := 403, message := "Access token expired" } := by
    simp [authenticateToken, hh, ht, hexp]
  exact ⟨rfl, h2, rfl, by rw [h2]; rfl, by decide⟩

/-- Claim C2, witness: the amended statement evaluated at a concrete header
`"Bearer abc"` and a verifier that reports expiry. -/
theorem auth_missing_and_expired_both_block_witness :
    authenticateToken none (fun _ => VerifyResult.tokenExpired)
      = AuthOutcome.reject { status := 401, message := "Authorization header missing" }
    ∧ authenticateToken (some "Bearer abc") (fun _ => VerifyResult.tokenExpired)
      = AuthOutcome.reject { status := 403, message := "Access token expired" }
    ∧ (authenticateToken none (fun _ => VerifyResult.tokenExpired)).blocks = true
    ∧ (authenticateToken (some "Bearer abc") (fun _ => VerifyResult.tokenExpired)).blocks = true
    ∧ "Authorization header missing" ≠ "Access token expired" :=
  auth_missing_and_expired_both_block (fun _ => VerifyResult.tokenExpired)
    "Bearer abc" (by decide) (by decide) rfl

/-! ## Claim C8 — best-effort side channels -/

/-- Claim C8: `logRequest` calls `next()` regardless of whether the INSERT
into `command_log` succeeded, appending the `(method, endpoint)` record
exactly when it did; `logStat` swallows any ping failure; and the response
and store produced by each handler are independent of the stats-ping
outcome. -/
theorem side_channels_never_alter_outcome :
    (∀ (method url : String) (r : Except String Unit) (log : CommandLog),
       (logRequest method url r log).2 = true)
    ∧ (∀ (method url : String) (log : CommandLog),
       (logRequest method url (Except.ok ()) log).1.entries
         = log.entries ++ [(method, url)])
    ∧ (∀ r : Except String Unit, logStat r = Except.ok ())
    ∧ (∀ (e : String) (db : Db) (p p' : Except String Unit),
       getAllShipments e db p = getAllShipments e db p')
    ∧ (∀ (now : Nat) (b : CreateBody) (db : Db) (p p' : Except String Unit),
       createShipment now b db p = createShipment now b db p')
    ∧ (∀ (i : Option Nat) (ds : Option String) (e : String) (db : Db)
         (p p' : Except String Unit),
       updateDeliveryStatus i ds e db p = updateDeliveryStatus i ds e db p')
    ∧ (∀ (e : String) (db : Db) (p p' : Except String Unit),
       deleteAllShipments e db p = deleteAllShipments e db p') := by
  refine ⟨?_, ?_, ?_, ?_, ?_, ?_, ?_⟩
  · intro method url r log; cases r <;> rfl
  · intro method url log; rfl
  · intro r; cases r <;> rfl
  · intro e db p p'; cases p <;> cases p' <;> rfl
  · intro now b db p p'; cases p <;> cases p' <;> rfl
  · intro i ds e db p p'; cases p <;> cases p' <;> rfl
  · intro e db p p'; cases p <;> cases p' <;> rfl

/-! ## Claim C4 — create with a missing required field -/

/-- Claim C4: a create request in which at least one of the eleven required
fields is absent is answered 400 "All fields are required", no id is
assigned, and the store is returned unchanged — the repository is never
called. -/
theorem create_missing_field_rejected (now : Nat) (b : CreateBody) (db : Db)
    (ping : Except String Unit)
    (h : b.order_id = none ∨ b.recipient_name = none ∨ b.recipient_email = none
       ∨ b.recipient_phone = none ∨ b.delivery_address = none
       ∨ b.postal_number = none ∨ b.city = none ∨ b.country = none
       ∨ b.delivery_status = none ∨ b.weight = none ∨ b.estimated_cost = none) :
    createShipment now b db ping
      = ({ status := 400, message := "All fields are required", shipmentId := none },
         db) := by
  have hm : createMissingField b = true := by
    rcases h with h | h | h | h | h | h | h | h | h | h | h <;>
      simp [createMissingField, truthyStr, truthyInt, truthyRat, h]
  simp [createShipment, hm]

/-- Claim C4, witness: the empty body against the store holding `shipA`. -/
theorem create_missing_field_rejected_witness :
    createShipment 0 bodyEmpty dbA (Except.ok ())
      = ({ status := 400, message := "All fields are required", shipmentId := none },
         dbA) :=
  create_missing_field_rejected 0 bodyEmpty dbA (Except.ok ()) (Or.inl rfl)

/-! ## Claim C9 — truthiness rejects present-but-zero numerics -/

/-- Claim C9: the create guard tests JavaScript truthiness, so a request in
which `estimated_cost`, `postal_number` or `weight` is present but equal to
`0` is answered with the same 400 "All fields are required" failure as an
absent field, and the store is returned unchanged. -/
theorem create_zero_numeric_rejected (now : Nat) (b : CreateBody) (db : Db)
    (ping : Except String Unit)
    (h : b.estimated_cost = some 0 ∨ b.postal_number = some 0 ∨ b.weight = some 0) :
    createShipment now b db ping
      = ({ status := 400, message := "All fields are required", shipmentId := none },
         db) := by
  have hm : createMissingField b = true := by
    rcases h with h | h | h <;>
      simp [createMissingField, truthyStr, truthyInt, truthyRat, h]
  simp [createShipment, hm]

/-- Claim C9, witness: a body valid in every field except
`estimated_cost = 0` is rejected just like an absent field. -/
theorem create_zero_numeric_rejected_witness :
    createShipment 0 bodyZeroCost dbA (Except.ok ())
      = ({ status := 400, message := "All fields are required", shipmentId := none },
         dbA) :=
  create_zero_numeric_rejected 0 bodyZeroCost dbA (Except.ok ()) (Or.inl rfl)

/-! ## Claim C5 — status update on an absent or foreign-owned id -/

/-- Claim C5: when no row matches both the requested id and the caller's
owner key — whether the id does not exist at all or the row belongs to a
different owner — the scoped UPDATE reports zero affected rows and the
controller answers 404 "Shipment not found" with the store unchanged; the
two cases produce the identical response, so they are indistinguishable. -/
theorem update_status_absent_or_foreign_404 (i : Nat)
    (ds recipient_email : String) (db : Db) (ping : Except String Unit)
    (hds : (ds == "") = false)
    (hnone : db.rows.all
      (fun r => !(r.id == i && r.recipient_email == recipient_email)) = true) :
    (Shipment.updateDeliveryStatus db i recipient_email ds).1 = 0
    ∧ updateDeliveryStatus (some i) (some ds) recipient_email db ping
      = ({ status := 404, message := "Shipment not found" }, db) := by
  have hfalse : ∀ r ∈ db.rows,
      (r.id == i && r.recipient_email == recipient_email) = false := by
    intro r hr
    have h1 := List.all_eq_true.mp hnone r hr
    rwa [Bool.not_eq_true'] at h1
  have hnil : db.rows.filter
      (fun r => r.id == i && r.recipient_email == recipient_email) = [] := by
    rw [List.filter_eq_nil_iff]
    intro a ha
    simp [hfalse a ha]
  have hmap : db.rows.map (fun r =>
      if r.id == i && r.recipient_email == recipient_email then
        { r with delivery_status := ds } else r) = db.rows := by
    conv_rhs => rw [← List.map_id db.rows]
    apply List.map_congr_left
    intro a ha
    simp [hfalse a ha]
  have hrepo : Shipment.updateDeliveryStatus db i recipient_email ds = (0, db) := by
    simp only [Shipment.updateDeliveryStatus, hnil, List.length_nil, hmap]
  refine ⟨by rw [hrepo], ?_⟩
  simp [updateDeliveryStatus, truthyStr, hds, hrepo]

/-- Claim C5, witness: shipment 1 exists but is owned by `a@x.com`; a
status update for id 1 under `b@x.com` reports zero rows and answers 404
with the store untouched. -/
theorem update_status_absent_or_foreign_404_witness :
    (Shipment.updateDeliveryStatus dbA 1 "b@x.com" "delivered").1 = 0
    ∧ updateDeliveryStatus (some 1) (some "delivered") "b@x.com" dbA (Except.ok ())
      = ({ status := 404, message := "Shipment not found" }, dbA) :=
  update_status_absent_or_foreign_404 1 "delivered" "b@x.com" dbA
    (Except.ok ()) (by decide) (by decide)

/-! ## Claim C6 — bulk delete semantics -/

/-- Claim C6: `deleteAll` for an owner with zero shipments answers 404
"No shipments to delete" with the store unchanged; for an owner with at
least one shipment it answers 200 and removes exactly the owner's rows —
the affected-row count equals the owner's row count, a subsequent
`getAll` for that owner is empty, the store shrinks by exactly that count,
and any other owner's listing is untouched. -/
theorem delete_all_semantics (recipient_email other : String) (db : Db)
    (ping : Except String Unit) (hother : other ≠ recipient_email) :
    (Shipment.getAll db recipient_email = [] →
       deleteAllShipments recipient_email db ping
         = ({ status := 404, message := "No shipments to delete" }, db))
    ∧ (Shipment.deleteAll db recipient_email).1
        = (Shipment.getAll db recipient_email).length
    ∧ (Shipment.getAll db recipient_email ≠ [] →
        (deleteAllShipments recipient_email db ping).1
          = { status := 200, message := "All shipments deleted successfully" }
        ∧ (deleteAllShipments recipient_email db ping).2
          = (Shipment.deleteAll db recipient_email).2)
    ∧ Shipment.getAll (Shipment.deleteAll db recipient_email).2 recipient_email = []
    ∧ (Shipment.deleteAll db recipient_email).2.rows.length
        + (Shipment.getAll db recipient_email).length = db.rows.length
    ∧ Shipment.getAll (Shipment.deleteAll db recipient_email).2 other
        = Shipment.getAll db other := by
  refine ⟨?_, rfl, ?_, ?_, ?_, ?_⟩
  · intro hz
    have hz0 : db.rows.filter (fun r => r.recipient_email == recipient_email)
        = [] := hz
    have hfalse : ∀ r ∈ db.rows, (r.recipient_email == recipient_email) = false := by
      intro r hr
      have h1 := List.filter_eq_nil_iff.mp hz0 r hr
      simpa using h1
    have hkeep : db.rows.filter (fun r => !(r.recipient_email == recipient_email))
        = db.rows := by
      rw [List.filter_eq_self]
      intro a ha
      simp [hfalse a ha]
    have hrepo : Shipment.deleteAll db recipient_email = (0, db) := by
      simp only [Shipment.deleteAll, hz0, List.length_nil, hkeep]
    simp [deleteAllShipments, hrepo]
  · intro hnz
    have hlen : ((Shipment.deleteAll db recipient_email).1 == 0) = false := by
      rw [beq_eq_false_iff_ne]
      intro h0
      exact hnz (List.eq_nil_of_length_eq_zero h0)
    cases ping <;> simp [deleteAllShipments, hlen, logStat]
  · exact List.filter_eq_nil_iff.mpr (by
      intro a ha
      have h1 := (List.mem_filter.mp ha).2
      simp only [Bool.not_eq_true'] at h1
      simp [h1])
  · exact length_filter_not_add db.rows
      (fun r => r.recipient_email == recipient_email)
  · exact filter_filter_excl db.rows
      (fun r => r.recipient_email == other)
      (fun r => r.recipient_email == recipient_email)
      (by
        intro a ha
        have h1 : a.recipient_email = recipient_email := by simpa using ha
        simp only [h1]
        simpa using fun h => hother h.symm)

/-- Claim C6, witness: deleting all of `a@x.com`'s shipments from the store
holding one shipment each for `a@x.com` and `b@x.com`. -/
theorem delete_all_semantics_witness :
    (deleteAllShipments "a@x.com" dbAB (Except.ok ())).1
      = { status := 200, message := "All shipments deleted successfully" }
    ∧ Shipment.getAll (Shipment.deleteAll dbAB "a@x.com").2 "a@x.com" = []
    ∧ (Shipment.deleteAll dbAB "a@x.com").2.rows.length
        + (Shipment.getAll dbAB "a@x.com").length = dbAB.rows.length
    ∧ Shipment.getAll (Shipment.deleteAll dbAB "a@x.com").2 "b@x.com"
        = Shipment.getAll dbAB "b@x.com" := by
  have h := delete_all_semantics "a@x.com" "b@x.com" dbAB (Except.ok ())
    (by decide)
  exact ⟨(h.2.2.1 (by decide)).1, h.2.2.2.1, h.2.2.2.2.1, h.2.2.2.2.2⟩

/-! ## Claim C1 — ownership isolation -/

/-- Claim C1, counterexample: the `/graphql` route is mounted without the
authentication middleware and its `shipments` resolver selects every row
with no owner filter, so a request carrying `b@x.com`'s credential (or
none) is handed `a@x.com`'s shipment — the claimed "never returned by any
operation" fails on the GraphQL read path even though every REST path is
scoped. -/
theorem graphql_returns_foreign_shipment :
    ("a@x.com" : String) ≠ "b@x.com"
    ∧ shipA.recipient_email = "a@x.com"
    ∧ graphqlShipmentsRequest (some "Bearer token-of-b") dbA = [gqlView shipA]
    ∧ (gqlView shipA).row.recipient_email = "a@x.com" := by
  exact ⟨by decide, rfl, rfl, rfl⟩

/-- Claim C1, amended: every repository operation behind the REST surface
filters by the caller's resolved owner key, so under REST a shipment whose
`recipient_email` is A's is never returned, updated, or deleted on behalf
of a caller resolved to B ≠ A, even when the correct numeric `id` or
`order_id` is supplied: listing and order-id lookup under B only yield B's
rows, and the scoped UPDATE/DELETE statements leave A's rows exactly as
they were. The GraphQL resolvers, by contrast, read without an owner
filter. -/
theorem rest_ownership_isolation (db : Db) (A B oid ds : String)
    (i : Nat) (now : Nat) (hAB : A ≠ B) :
    (Shipment.getAll db B).all (fun s => !(s.recipient_email == A)) = true
    ∧ Option.all (fun s => !(s.recipient_email == A))
        (Shipment.getByOrderId db oid B) = true
    ∧ (Shipment.updateDeliveryStatus db i B ds).2.rows.filter
        (fun s => s.recipient_email == A)
        = db.rows.filter (fun s => s.recipient_email == A)
    ∧ (Shipment.updateTimestamp db i B now).2.rows.filter
        (fun s => s.recipient_email == A)
        = db.rows.filter (fun s => s.recipient_email == A)
    ∧ (Shipment.delete db i B).2.rows.filter
        (fun s => s.recipient_email == A)
        = db.rows.filter (fun s => s.recipient_email == A)
    ∧ (Shipment.deleteAll db B).2.rows.filter
        (fun s => s.recipient_email == A)
        = db.rows.filter (fun s => s.recipient_email == A) := by
  have hBA : (∀ s : Shipment, s.recipient_email = B →
      (s.recipient_email == A) = false) := by
    intro s hs
    simp only [hs]
    simpa using fun h => hAB h.symm
  refine ⟨?_, ?_, ?_, ?_, ?_, ?_⟩
  · rw [List.all_eq_true]
    intro s hs
    have hmem := List.mem_filter.mp hs
    have hsB : s.recipient_email = B := by simpa using hmem.2
    simp [hBA s hsB]
  · rcases hh : Shipment.getByOrderId db oid B with _ | s
    · rfl
    · have hh' : (db.rows.filter
          (fun r => r.order_id == oid && r.recipient_email == B)).head?
          = some s := hh
      have hmem := List.mem_of_mem_head? (Option.mem_def.mpr hh')
      have hpred := (List.mem_filter.mp hmem).2
      have hsB : s.recipient_email = B := by
        simp only [Bool.and_eq_true] at hpred
        simpa using hpred.2
      simp [Option.all, hBA s hsB]
  · exact filter_map_excl db.rows
      (fun s => s.recipient_email == A)
      (fun s => s.id == i && s.recipient_email == B)
      (fun s => { s with delivery_status := ds })
      (by
        intro a ha
        have haB : a.recipient_email = B := by
          simp only [Bool.and_eq_true] at ha
          simpa using ha.2
        exact ⟨hBA a haB, hBA _ haB⟩)
  · exact filter_map_excl db.rows
      (fun s => s.recipient_email == A)
      (fun s => s.id == i && s.recipient_email == B)
      (fun s => { s with updated_at := now })
      (by
        intro a ha
        have haB : a.recipient_email = B := by
          simp only [Bool.and_eq_true] at ha
          simpa using ha.2
        exact ⟨hBA a haB, hBA _ haB⟩)
  · exact filter_filter_excl db.rows
      (fun s => s.recipient_email == A)
      (fun s => s.id == i && s.recipient_email == B)
      (by
        intro a ha
        have haB : a.recipient_email = B := by
          simp only [Bool.and_eq_true] at ha
          simpa using ha.2
        exact hBA a haB)
  · exact filter_filter_excl db.rows
      (fun s => s.recipient_email == A)
      (fun s => s.recipient_email == B)
      (by
        intro a ha
        have haB : a.recipient_email = B := by simpa using ha
        exact hBA a haB)

/-- Claim C1, witness: the amended statement evaluated with owners
`a@x.com` and `b@x.com` on the store holding `shipA`, id 1 and order
`ORD1` — `shipA`'s own identifiers — supplied by the caller. -/
theorem rest_ownership_isolation_witness :
    (Shipment.getAll dbA "b@x.com").all
      (fun s => !(s.recipient_email == "a@x.com")) = true
    ∧ Option.all (fun s => !(s.recipient_email == "a@x.com"))
        (Shipment.getByOrderId dbA "ORD1" "b@x.com") = true
    ∧ (Shipment.updateDeliveryStatus dbA 1 "b@x.com" "delivered").2.rows.filter
        (fun s => s.recipient_email == "a@x.com")
        = dbA.rows.filter (fun s => s.recipient_email == "a@x.com")
    ∧ (Shipment.updateTimestamp dbA 1 "b@x.com" 500).2.rows.filter
        (fun s => s.recipient_email == "a@x.com")
        = dbA.rows.filter (fun s => s.recipient_email == "a@x.com")
    ∧ (Shipment.delete dbA 1 "b@x.com").2.rows.filter
        (fun s => s.recipient_email == "a@x.com")
        = dbA.rows.filter (fun s => s.recipient_email == "a@x.com")
    ∧ (Shipment.deleteAll dbA "b@x.com").2.rows.filter
        (fun s => s.recipient_email == "a@x.com")
        = dbA.rows.filter (fun s => s.recipient_email == "a@x.com") :=
  rest_ownership_isolation dbA "a@x.com" "b@x.com" "ORD1" "delivered" 1 500
    (by decide)

/-! ## Claim C3 — the delivery-status enumeration is not enforced -/

/-- Claim C3: the repository's own OpenAPI annotations declare
`delivery_status` as the four-value enumeration and describe 400 as the
answer to an invalid value, but neither the controller nor the model checks
membership — only truthiness. Evaluated here: `"teleported"` is outside the
documented enumeration, yet the status update answers 200 and writes the
value, and a create carrying it answers 201 and stores it. -/
theorem delivery_status_enum_not_enforced :
    statusEnum.contains "teleported" = false
    ∧ (updateDeliveryStatus (some 1) (some "teleported") "a@x.com" dbA
        (Except.ok ())).1
      = { status := 200, message := "Delivery status updated successfully" }
    ∧ ((updateDeliveryStatus (some 1) (some "teleported") "a@x.com" dbA
        (Except.ok ())).2).rows.map (fun r => r.delivery_status)
      = ["teleported"]
    ∧ bodyBadStatus.delivery_status = some "teleported"
    ∧ (createShipment 0 bodyBadStatus dbEmpty (Except.ok ())).1.status = 201
    ∧ ((createShipment 0 bodyBadStatus dbEmpty (Except.ok ())).2).rows.map
        (fun r => r.delivery_status) = ["teleported"] := by
  exact ⟨by decide, by decide, by decide, rfl, by decide, by decide⟩

/-! ## Claim C7 — create / fetch-by-order-id round trip -/

/-- Claim C7, counterexample: the store already holds a shipment with the
same `(order_id, recipient_email)` key; the create succeeds (201), but
fetching by that order id returns the first matching row — the
pre-existing one, whose `recipient_name` is "Old", not the created "New" —
so the claim fails as stated when a duplicate key pre-exists. -/
theorem create_fetch_returns_preexisting_duplicate :
    (createShipment 50 bodyNew dbDup (Except.ok ())).1.status = 201
    ∧ bodyNew.recipient_name = some "New"
    ∧ (Shipment.getByOrderId (createShipment 50 bodyNew dbDup (Except.ok ())).2
        "ORD1" "e@x.com").map (fun s => s.recipient_name) = some "Old"
    ∧ ("Old" : String) ≠ "New" := by
  exact ⟨by decide, rfl, by decide, by decide⟩

/-- Claim C7, amended: provided owner E has no shipment stored under the
requested `order_id` yet, a successful create followed by a fetch by that
`order_id` under E returns a shipment whose caller-supplied fields all
equal the created values, whose `id` is the store-assigned fresh id (also
reported in the 201 response), and whose `created_at`/`updated_at` are the
caller-supplied values or the server's current time. -/
theorem create_get_round_trip (now : Nat) (b : CreateBody) (db : Db)
    (ping : Except String Unit) (E oid : String)
    (hoid : b.order_id = some oid)
    (hE : b.recipient_email = some E)
    (hvalid : createMissingField b = false)
    (hfresh : Shipment.getByOrderId db oid E = none) :
    (createShipment now b db ping).1
      = { status := 201, message := "Shipment created successfully",
          shipmentId := some db.nextId }
    ∧ Shipment.getByOrderId (createShipment now b db ping).2 oid E
      = some { id := db.nextId, order_id := oid,
               recipient_name := b.recipient_name.getD "",
               recipient_email := E,
               recipient_phone := b.recipient_phone.getD "",
               delivery_address := b.delivery_address.getD "",
               postal_number := b.postal_number.getD 0,
               city := b.city.getD "",
               country := b.country.getD "",
               delivery_status := b.delivery_status.getD "",
               tracking_number := b.tracking_number,
               weight := b.weight.getD 0,
               estimated_cost := b.estimated_cost.getD 0,
               created_at := b.created_at.getD now,
               updated_at := b.updated_at.getD now } := by
  have hnil : db.rows.filter
      (fun r => r.order_id == oid && r.recipient_email == E) = [] :=
    List.head?_eq_none_iff.mp hfresh
  constructor
  · cases ping <;> simp [createShipment, hvalid, Shipment.create, logStat]
  · cases ping <;>
      simp [createShipment, hvalid, Shipment.create, logStat,
        Shipment.getByOrderId, List.filter_append, hnil, ShipmentData.toRow,
        hoid, hE]

/-- Claim C7, witness: creating `bodyNew` in the empty store and fetching
`ORD1` as `e@x.com` returns exactly the created field set with fresh id 1
and the server time 50 in both timestamps. -/
theorem create_get_round_trip_witness :
    (createShipment 50 bodyNew dbEmpty (Except.ok ())).1
      = { status := 201, message := "Shipment created successfully",
          shipmentId := some dbEmpty.nextId }
    ∧ Shipment.getByOrderId (createShipment 50 bodyNew dbEmpty (Except.ok ())).2
        "ORD1" "e@x.com"
      = some { id := dbEmpty.nextId, order_id := "ORD1",
               recipient_name := bodyNew.recipient_name.getD "",
               recipient_email := "e@x.com",
               recipient_phone := bodyNew.recipient_phone.getD "",
               delivery_address := bodyNew.delivery_address.getD "",
               postal_number := bodyNew.postal_number.getD 0,
               city := bodyNew.city.getD "",
               country := bodyNew.country.getD "",
               delivery_status := bodyNew.delivery_status.getD "",
               tracking_number := bodyNew.tracking_number,
               weight := bodyNew.weight.getD 0,
               estimated_cost := bodyNew.estimated_cost.getD 0,
               created_at := bodyNew.created_at.getD 50,
               updated_at := bodyNew.updated_at.getD 50 } :=
  create_get_round_trip 50 bodyNew dbEmpty (Except.ok ()) "e@x.com" "ORD1"
    rfl rfl (by decide) (by decide)

/-! ## Claim C10 — frame property of the status update -/

/-- Claim C10: a status update touches at most the `delivery_status` column
of the matched row — row `k` of the updated store agrees with row `k` of
the old store on every other column, in particular `updated_at`; an
unmatched row is returned verbatim, the matched row gets the new status,
and the row count is preserved. `updated_at` advances only via the
dedicated `updateTimestamp` operation, which in turn only touches
`updated_at` of the matched row, setting it to the current time. -/
theorem status_update_frame (db : Db) (i : Nat) (recipient_email ds : String)
    (now k : Nat) (hk : k < db.rows.length) :
    (Shipment.updateDeliveryStatus db i recipient_email ds).2.rows.length
      = db.rows.length
    ∧ (Shipment.updateTimestamp db i recipient_email now).2.rows.length
      = db.rows.length
    ∧ (Shipment.updateDeliveryStatus db i recipient_email ds).2.rows.getD k default
      = { db.rows.getD k default with
          delivery_status :=
            ((Shipment.updateDeliveryStatus db i recipient_email ds).2.rows.getD
              k default).delivery_status }
    ∧ ((Shipment.updateDeliveryStatus db i recipient_email ds).2.rows.getD
        k default).updated_at = (db.rows.getD k default).updated_at
    ∧ (((db.rows.getD k default).id == i
        && (db.rows.getD k default).recipient_email == recipient_email) = false →
       (Shipment.updateDeliveryStatus db i recipient_email ds).2.rows.getD k default
         = db.rows.getD k default)
    ∧ (((db.rows.getD k default).id == i
        && (db.rows.getD k default).recipient_email == recipient_email) = true →
       ((Shipment.updateDeliveryStatus db i recipient_email ds).2.rows.getD
         k default).delivery_status = ds)
    ∧ (Shipment.updateTimestamp db i recipient_email now).2.rows.getD k default
      = { db.rows.getD k default with
          updated_at :=
            ((Shipment.updateTimestamp db i recipient_email now).2.rows.getD
              k default).updated_at }
    ∧ (((db.rows.getD k default).id == i
        && (db.rows.getD k default).recipient_email == recipient_email) = true →
       ((Shipment.updateTimestamp db i recipient_email now).2.rows.getD
         k default).updated_at = now)
    ∧ (((db.rows.getD k default).id == i
        && (db.rows.getD k default).recipient_email == recipient_email) = false →
       (Shipment.updateTimestamp db i recipient_email now).2.rows.getD k default
         = db.rows.getD k default) := by
  have hgd : db.rows[k]? = some (db.rows.getD k default) := by
    rw [List.getD_eq_getElem?_getD, List.getElem?_eq_getElem hk]
    rfl
  have hu : (Shipment.updateDeliveryStatus db i recipient_email ds).2.rows.getD
      k default
      = (if (db.rows.getD k default).id == i
            && (db.rows.getD k default).recipient_email == recipient_email then
          { db.rows.getD k default with delivery_status := ds }
        else db.rows.getD k default) := by
    simp only [Shipment.updateDeliveryStatus]
    rw [List.getD_eq_getElem?_getD, List.getElem?_map, hgd]
    rfl
  have ht : (Shipment.updateTimestamp db i recipient_email now).2.rows.getD
      k default
      = (if (db.rows.getD k default).id == i
            && (db.rows.getD k default).recipient_email == recipient_email then
          { db.rows.getD k default with updated_at := now }
        else db.rows.getD k default) := by
    simp only [Shipment.updateTimestamp]
    rw [List.getD_eq_getElem?_getD, List.getElem?_map, hgd]
    rfl
  refine ⟨by simp [Shipment.updateDeliveryStatus],
         by simp [Shipment.updateTimestamp], ?_, ?_, ?_, ?_, ?_, ?_, ?_⟩
  · rw [hu]
    by_cases hc : ((db.rows.getD k default).id == i
        && (db.rows.getD k default).recipient_email == recipient_email) = true
    · rw [if_pos hc]
    · rw [if_neg hc]
  · rw [hu]
    by_cases hc : ((db.rows.getD k default).id == i
        && (db.rows.getD k default).recipient_email == recipient_email) = true
    · rw [if_pos hc]
    · rw [if_neg hc]
  · intro hc'
    rw [hu, if_neg (by rw [hc']; simp)]
  · intro hc
    rw [hu, if_pos hc]
  · rw [ht]
    by_cases hc : ((db.rows.getD k default).id == i
        && (db.rows.getD k default).recipient_email == recipient_email) = true
    · rw [if_pos hc]
    · rw [if_neg hc]
  · intro hc
    rw [ht, if_pos hc]
  · intro hc'
    rw [ht, if_neg (by rw [hc']; simp)]

/-- Claim C10, witness: updating the status of shipment 1 as its owner in
the store holding `shipA` leaves row 0 identical except for
`delivery_status`, and in particular leaves `updated_at` untouched. -/
theorem status_update_frame_witness :
    (Shipment.updateDeliveryStatus dbA 1 "a@x.com" "delivered").2.rows.getD 0 default
      = { dbA.rows.getD 0 default with
          delivery_status :=
            ((Shipment.updateDeliveryStatus dbA 1 "a@x.com" "delivered").2.rows.getD
              0 default).delivery_status }
    ∧ ((Shipment.updateDeliveryStatus dbA 1 "a@x.com" "delivered").2.rows.getD
        0 default).updated_at = (dbA.rows.getD 0 default).updated_at := by
  have h := status_update_frame dbA 1 "a@x.com" "delivered" 500 0 (by decide)
  exact ⟨h.2.2.1, h.2.2.2.1⟩

end ShippingSvc
